import Mathlib

/-
Verification of the OIS forward-curve job (src/ois_curves.py).

The script's core is the function `fwd_curve(rates, terms, units, eval_date,
currency)`.  We embed it shallowly:

* Dates are serial day numbers (`Int`), as QuantLib dates are serial numbers.
* The numeric type is a parameter `K` (a `LinearOrderedField`); theorems about
  logarithm identities instantiate `K := ℝ`, concrete evaluations use `K := ℚ`.
* Calls into the QuantLib library that this repository does not contain
  (calendar advancement, the `PiecewiseLogCubicDiscount` bootstrap, the natural
  logarithm inside `forwardRate`) are fields of an environment record `Env`;
  the deterministic wrappers around them (`MakeSchedule` with a 1-day step,
  `forwardRate` with `ql.Continuous` compounding, `Actual360`/`Actual365Fixed`
  year fractions) are embedded concretely from their documented meaning.
* Python control flow is explicit: `logging.fatal(...)` followed by `exit()`
  becomes the outcome `processHalt` (the whole process terminates), an uncaught
  Python exception (`ValueError` from `int(...)`, `IndexError` from list
  indexing) becomes `pyError`, and the `try: ... except RuntimeError:` block
  returning `pd.DataFrame()` becomes `frame []`.
* The global singleton `ql.Settings.instance()` written on the first line of
  `fwd_curve` is threaded as explicit state: `fwd_curve` receives the prior
  `Settings` value and returns the new one next to its result.
-/

namespace OisCurves

/-- `ql.Days` / `ql.Weeks` / `ql.Months` / `ql.Years`. -/
inductive TimeUnit
  | days
  | weeks
  | months
  | years
deriving DecidableEq

/-- The six QuantLib calendars used by the currency dispatch in
`fwd_curve` (lines 28-57 of the source). -/
inductive CalendarId
  | target
  | unitedKingdom
  | unitedStates
  | japan
  | australia
  | canada
deriving DecidableEq

/-- `ql.Actual360()` and `ql.Actual365Fixed()`. -/
inductive DayCount
  | actual360
  | actual365Fixed
deriving DecidableEq

/-- The arguments of the `ql.OvernightIndex(name, settlementDays, currency,
calendar, dayCount)` constructor, one per supported currency. -/
structure Index where
  name : String
  settlementDays : Int
  currencyCode : String
  calendar : CalendarId
  dayCount : DayCount
deriving DecidableEq

/-- The four values bound by one branch of the currency `if/elif` chain:
`settlement_days`, `calendar`, `day_count`, `index`. -/
structure Conv where
  settlementDays : Int
  calendar : CalendarId
  dayCount : DayCount
  index : Index
deriving DecidableEq

/-- One `ql.OISRateHelper(settlement_days, ql.Period(int(terms[i]), time_unit),
ql.QuoteHandle(ql.SimpleQuote(rates[i]/100)), index)` (lines 80-82).  The
quote field stores `rates[i]/100`. -/
structure OISHelper (K : Type) where
  settlementDays : Int
  tenorN : Int
  tenorUnit : TimeUnit
  quote : K
  index : Index
deriving DecidableEq

/-- A built `ql.PiecewiseLogCubicDiscount` curve, reduced to what the script
reads from it: its reference date and its discount-factor function. -/
structure Curve (K : Type) where
  ref : Int
  discount : Int → K

/-- The mutable global `ql.Settings.instance()`; the script writes its
`evaluationDate` field on line 24. -/
structure Settings where
  evaluationDate : Int
deriving DecidableEq

/-- One row of the returned data frame, with its five columns
`Date, Currency, DateFwd, RateFwd, Updated` (line 100). -/
structure Row (K : Type) where
  Date : Int
  Currency : String
  DateFwd : Int
  RateFwd : K
  Updated : Int
deriving DecidableEq

/-- How one call of `fwd_curve` ends: a returned data frame (possibly the
empty `pd.DataFrame()` from the `except RuntimeError` branch), a process
termination via `logging.fatal` + `exit()`, or an uncaught Python exception
escaping the function. -/
inductive Outcome (K : Type)
  | frame (rows : List (Row K))
  | processHalt
  | pyError
deriving DecidableEq

/-- The external QuantLib services the script calls but whose code is not in
this repository: the natural logarithm used inside
`forwardRate(..., ql.Continuous)` (instantiated as `Real.log` in theorems over
`ℝ`), the `ql.PiecewiseLogCubicDiscount(0, calendar, helpers, day_count)`
bootstrap (which raises `RuntimeError`, modelled as `Except.error`, on
failure), and `calendar.advance(date, n, unit)`. -/
structure Env (K : Type) where
  log : K → K
  buildCurve : Settings → CalendarId → List (OISHelper K) → DayCount → Except String (Curve K)
  advance : CalendarId → Int → Int → TimeUnit → Int

/-- The `ql.OvernightIndex` of the EUR branch (line 32). -/
def eurIndex : Index := ⟨"EUR", 2, "EUR", CalendarId.target, DayCount.actual360⟩

/-- The `ql.OvernightIndex` of the GBP branch (line 37). -/
def gbpIndex : Index := ⟨"GBP", 0, "GBP", CalendarId.unitedKingdom, DayCount.actual365Fixed⟩

/-- The `ql.OvernightIndex` of the USD branch (line 42). -/
def usdIndex : Index := ⟨"USD", 2, "USD", CalendarId.unitedStates, DayCount.actual360⟩

/-- The `ql.OvernightIndex` of the JPY branch (line 47). -/
def jpyIndex : Index := ⟨"JPY", 2, "JPY", CalendarId.japan, DayCount.actual365Fixed⟩

/-- The `ql.OvernightIndex` of the AUD branch (line 52). -/
def audIndex : Index := ⟨"AUD", 1, "AUD", CalendarId.australia, DayCount.actual365Fixed⟩

/-- The `ql.OvernightIndex` of the CAD branch (line 57). -/
def cadIndex : Index := ⟨"CAD", 1, "CAD", CalendarId.canada, DayCount.actual365Fixed⟩

/-- The currency `if/elif` chain of lines 28-60.  `none` is the `else`
branch, which logs fatally and calls `exit()`. -/
def convOf : String → Option Conv
  | "EUR" => some ⟨2, CalendarId.target, DayCount.actual360, eurIndex⟩
  | "GBP" => some ⟨0, CalendarId.unitedKingdom, DayCount.actual365Fixed, gbpIndex⟩
  | "USD" => some ⟨2, CalendarId.unitedStates, DayCount.actual360, usdIndex⟩
  | "JPY" => some ⟨2, CalendarId.japan, DayCount.actual365Fixed, jpyIndex⟩
  | "AUD" => some ⟨1, CalendarId.australia, DayCount.actual365Fixed, audIndex⟩
  | "CAD" => some ⟨1, CalendarId.canada, DayCount.actual365Fixed, cadIndex⟩
  | _ => none

/-- Python's `str.upper()` restricted to ASCII, character by character (the
unit strings of this job are single ASCII letters). -/
def pyUpper (s : String) : String :=
  ⟨s.data.map Char.toUpper⟩

/-- The time-unit dispatch of lines 66-78: upper-case the unit string, then
compare with `"D"`, `"W"`, `"M"`, `"Y"`.  `none` is the `else` branch
(`logging.fatal` + `exit()`). -/
def parseTimeUnit (u : String) : Option TimeUnit :=
  let c := pyUpper u
  if c = "D" then some TimeUnit.days
  else if c = "W" then some TimeUnit.weeks
  else if c = "M" then some TimeUnit.months
  else if c = "Y" then some TimeUnit.years
  else none

/-- Digit-string accumulator for `pyInt`: consumes decimal digits, failing on
any non-digit character. -/
def parseDigitsAux : List Char → Nat → Option Nat
  | [], acc => some acc
  | c :: cs, acc =>
    if c.isDigit then parseDigitsAux cs (acc * 10 + (c.toNat - 48)) else none

/-- Python's `int(s)` on an optional-sign decimal string (line 80 applies it
to `terms[i]`): `none` models the `ValueError` Python raises when the string
is not an integer literal, e.g. `int("")` or `int("x")`.  (Whitespace and
underscore tolerance of the real `int` is not exercised by the job's data and
is not modelled.)  Note there is no positivity requirement: `"-2"` parses to
`-2`. -/
def pyInt (s : String) : Option Int :=
  match s.data with
  | [] => none
  | '-' :: c :: cs => (parseDigitsAux (c :: cs) 0).map (fun n => -(n : Int))
  | '+' :: c :: cs => (parseDigitsAux (c :: cs) 0).map (fun n => (n : Int))
  | c :: cs => (parseDigitsAux (c :: cs) 0).map (fun n => (n : Int))

/-- How the helper-construction loop of lines 62-82 can abort: `exitCall` is
`logging.fatal` + `exit()` (unexpected time unit), `pyExn` is an uncaught
Python exception (`IndexError` from `units[i]`/`terms[i]`, or `ValueError`
from `int(terms[i])`). -/
inductive LoopFail
  | exitCall
  | pyExn
deriving DecidableEq

instance {E A : Type} [DecidableEq E] [DecidableEq A] : DecidableEq (Except E A) :=
  fun a b =>
    match a, b with
    | Except.error e1, Except.error e2 =>
      if h : e1 = e2 then Decidable.isTrue (by rw [h]) else
        Decidable.isFalse (fun hc => h (Except.error.injEq e1 e2 ▸ hc))
    | Except.error _, Except.ok _ => Decidable.isFalse (fun hc => Except.noConfusion hc)
    | Except.ok _, Except.error _ => Decidable.isFalse (fun hc => Except.noConfusion hc)
    | Except.ok a1, Except.ok a2 =>
      if h : a1 = a2 then Decidable.isTrue (by rw [h]) else
        Decidable.isFalse (fun hc => h (Except.ok.injEq a1 a2 ▸ hc))

variable {K : Type} [LinearOrderedField K]

/-- The loop of lines 62-82: for each `i in range(len(rates))`, read
`units[i]` (IndexError if missing), dispatch the time unit (exit on an
unexpected one), read `terms[i]` (IndexError if missing), apply
`int(terms[i])` (ValueError if not an integer literal), then append
`OISRateHelper(settlement_days, Period(n, unit), rates[i]/100, index)`.
`ql.Period` and `ql.OISRateHelper` construction is modelled as record
creation; the loop itself performs no validation of the parsed magnitude. -/
def mkHelpers (sd : Int) (idx : Index) :
    List K → List String → List String → Except LoopFail (List (OISHelper K))
  | [], _, _ => Except.ok []
  | r :: rs, ts, us =>
    match us with
    | [] => Except.error LoopFail.pyExn
    | u :: us2 =>
      match parseTimeUnit u with
      | none => Except.error LoopFail.exitCall
      | some tu =>
        match ts with
        | [] => Except.error LoopFail.pyExn
        | t :: ts2 =>
          match pyInt t with
          | none => Except.error LoopFail.pyExn
          | some n =>
            match mkHelpers sd idx rs ts2 us2 with
            | Except.error e => Except.error e
            | Except.ok hs => Except.ok (⟨sd, n, tu, r / 100, idx⟩ :: hs)

/-- `day_count.yearFraction(d1, d2)` for the two conventions the script uses:
`Actual360` is `(d2 - d1) / 360`, `Actual365Fixed` is `(d2 - d1) / 365`. -/
def yearFraction (dc : DayCount) (d1 d2 : Int) : K :=
  match dc with
  | DayCount.actual360 => ((d2 - d1 : Int) : K) / 360
  | DayCount.actual365Fixed => ((d2 - d1 : Int) : K) / 365

/-- `curve.forwardRate(d1, d2, day_count, ql.Continuous).rate()` (line 90):
with continuous compounding the implied rate over `[d1, d2]` is
`log(discount(d1) / discount(d2)) / yearFraction(d1, d2)`. -/
def forwardRateCont (env : Env K) (curve : Curve K) (dc : DayCount) (d1 d2 : Int) : K :=
  env.log (curve.discount d1 / curve.discount d2) / yearFraction dc d1 d2

/-- `ql.MakeSchedule(a, b, ql.Period("1d"))` (line 88): the dates
`a, a + 1, ..., b`, both endpoints included. -/
def mkSchedule (a b : Int) : List Int :=
  (List.range (b - a + 1).toNat).map (fun k => a + Int.ofNat k)

/-- Lines 88-98: build the daily schedule from the curve's reference date to
`calendar.advance(referenceDate, 3, ql.Years)`, compute the continuously
compounded forward rate from each date `d` to `calendar.advance(d, 1,
ql.Days)` times 100, and assemble the data-frame rows with the constant
columns `Date` (the curve's reference date), `Currency`, and `Updated` (one
`datetime.now()` value for the whole frame). -/
def extractForwards (env : Env K) (cal : CalendarId) (dc : DayCount)
    (ccy : String) (now : Int) (curve : Curve K) : List (Row K) :=
  (mkSchedule curve.ref (env.advance cal curve.ref 3 TimeUnit.years)).map
    (fun d =>
      ⟨curve.ref, ccy, d,
        forwardRateCont env curve dc d (env.advance cal d 1 TimeUnit.days) * 100,
        now⟩)

/-- The function `fwd_curve(rates, terms, units, eval_date, currency)` of
lines 22-104.  `_s0` is the value of the global `ql.Settings.instance()`
before the call; the first component of the result is its value after the
call (line 24 overwrites `evaluationDate` unconditionally, so `_s0` is dead
on arrival).  `now` is the `datetime.now()` value of line 98. -/
def fwd_curve (env : Env K) (now : Int) (_s0 : Settings)
    (rates : List K) (terms : List String) (units : List String)
    (eval_date : Int) (currency : String) : Settings × Outcome K :=
  let settings : Settings := ⟨eval_date⟩
  match convOf currency with
  | none => (settings, Outcome.processHalt)
  | some cv =>
    match mkHelpers cv.settlementDays cv.index rates terms units with
    | Except.error LoopFail.exitCall => (settings, Outcome.processHalt)
    | Except.error LoopFail.pyExn => (settings, Outcome.pyError)
    | Except.ok hs =>
      match env.buildCurve settings cv.calendar hs cv.dayCount with
      | Except.error _ => (settings, Outcome.frame [])
      | Except.ok curve =>
        (settings,
          Outcome.frame (extractForwards env cv.calendar cv.dayCount currency now curve))

/-- A concrete environment over `ℚ` whose curve construction always raises
`RuntimeError`, with an all-business-day calendar whose years are 365 days:
used to evaluate the embedding on concrete inputs. -/
def qlFailEnv : Env ℚ :=
  ⟨id, fun _ _ _ _ => Except.error "RuntimeError",
    fun _ d n u =>
      match u with
      | TimeUnit.days => d + n
      | _ => d + 365 * n⟩

/-- A concrete environment over `ℚ` whose curve construction succeeds with the
constant discount curve 1 anchored at the evaluation date, and whose calendar
advances years by zero days (keeping concrete schedules small). -/
def qlOkEnv : Env ℚ :=
  ⟨id, fun s _ _ _ => Except.ok ⟨s.evaluationDate, fun _ => 1⟩,
    fun _ d n u =>
      match u with
      | TimeUnit.days => d + n
      | _ => d⟩

/-- The timestamp-free part of a row: the fields that do not depend on the
`datetime.now()` call. -/
def stripUpdated (r : Row K) : Int × String × Int × K :=
  (r.Date, r.Currency, r.DateFwd, r.RateFwd)

/-- The 1-day schedule from `a` to `b` has `b - a + 1` entries. -/
lemma length_mkSchedule (a b : Int) : (mkSchedule a b).length = (b - a + 1).toNat := by
  unfold mkSchedule
  rw [List.length_map, List.length_range]

/-- The extraction produces one row per schedule date. -/
lemma extractForwards_length (env : Env K) (cal : CalendarId) (dc : DayCount)
    (ccy : String) (now : Int) (curve : Curve K) :
    (extractForwards env cal dc ccy now curve).length
      = (env.advance cal curve.ref 3 TimeUnit.years - curve.ref + 1).toNat := by
  unfold extractForwards
  rw [List.length_map, length_mkSchedule]

/-- Every row of an extraction carries the curve's reference date, the run's
currency and the single timestamp of the run. -/
lemma mem_extractForwards (env : Env K) (cal : CalendarId) (dc : DayCount)
    (ccy : String) (now : Int) (curve : Curve K) :
    ∀ r ∈ extractForwards env cal dc ccy now curve,
      r.Date = curve.ref ∧ r.Currency = ccy ∧ r.Updated = now := by
  intro r hr
  unfold extractForwards at hr
  obtain ⟨d, _, rfl⟩ := List.mem_map.1 hr
  exact ⟨rfl, rfl, rfl⟩

/-- The 1-day schedule is strictly increasing. -/
lemma pairwise_mkSchedule (a b : Int) :
    (mkSchedule a b).Pairwise (fun x y => x < y) := by
  unfold mkSchedule
  refine List.Pairwise.map _ ?_ (List.pairwise_lt_range _)
  intro m n hmn
  exact add_lt_add_left (Int.ofNat_lt.mpr hmn) a

/-- Mapping each extracted row to its forward date recovers the schedule. -/
lemma map_dateFwd_extractForwards (env : Env K) (cal : CalendarId) (dc : DayCount)
    (ccy : String) (now : Int) (curve : Curve K) :
    (extractForwards env cal dc ccy now curve).map Row.DateFwd
      = mkSchedule curve.ref (env.advance cal curve.ref 3 TimeUnit.years) := by
  unfold extractForwards
  rw [List.map_map]
  exact List.map_id _

/-- The timestamp-free content of an extraction does not depend on the
timestamp argument. -/
lemma extract_stripUpdated (env : Env K) (cal : CalendarId) (dc : DayCount)
    (ccy : String) (now1 now2 : Int) (curve : Curve K) :
    (extractForwards env cal dc ccy now1 curve).map stripUpdated
      = (extractForwards env cal dc ccy now2 curve).map stripUpdated := by
  unfold extractForwards
  rw [List.map_map, List.map_map]
  rfl

/-- Claim C1 counterexample: calling `fwd_curve` with the unsupported
currency code `"CHF"` does not produce an empty `ForwardPoint` sequence for
that currency: it reaches `logging.fatal` + `exit()` (lines 58-60), which
terminates the whole multi-currency process, and that outcome is not the
empty frame. -/
theorem c1_counterexample :
    (fwd_curve qlFailEnv 0 ⟨0⟩ [(5 : ℚ)] ["1"] ["Y"] 0 "CHF").2 = Outcome.processHalt
    ∧ (Outcome.processHalt : Outcome ℚ) ≠ Outcome.frame [] :=
  ⟨rfl, fun h => Outcome.noConfusion h⟩

/-- Claim C1 (amended): only a curve-build failure (a `RuntimeError` from the
curve library, caught by the `try`/`except` of lines 84-104) is absorbed as
an empty frame for that currency; an unsupported currency code or an invalid
tenor unit terminates the whole job via `exit()`, and a non-integer tenor
magnitude raises an uncaught `ValueError`.  This theorem proves the absorbed
part: whenever the currency is supported and every quote passes the loop,
a build error yields exactly the empty frame. -/
theorem c1_build_failure_absorbed (env : Env K) (now : Int) (s0 : Settings)
    (rates : List K) (terms units : List String) (eval_date : Int) (ccy : String)
    (cv : Conv) (hs : List (OISHelper K)) (msg : String)
    (h1 : convOf ccy = some cv)
    (h2 : mkHelpers cv.settlementDays cv.index rates terms units = Except.ok hs)
    (h3 : env.buildCurve ⟨eval_date⟩ cv.calendar hs cv.dayCount = Except.error msg) :
    fwd_curve env now s0 rates terms units eval_date ccy
      = (⟨eval_date⟩, Outcome.frame []) := by
  simp only [fwd_curve, h1, h2, h3]

/-- Witness for `c1_build_failure_absorbed` at a concrete input. -/
theorem c1_build_failure_absorbed_w :
    convOf "EUR" = some ⟨2, CalendarId.target, DayCount.actual360, eurIndex⟩
    ∧ mkHelpers 2 eurIndex ([] : List ℚ) [] [] = Except.ok []
    ∧ qlFailEnv.buildCurve ⟨0⟩ CalendarId.target [] DayCount.actual360
        = Except.error "RuntimeError"
    ∧ fwd_curve qlFailEnv 3 ⟨7⟩ ([] : List ℚ) [] [] 0 "EUR"
        = (⟨0⟩, Outcome.frame []) :=
  ⟨rfl, rfl, rfl,
    c1_build_failure_absorbed qlFailEnv 3 ⟨7⟩ [] [] [] 0 "EUR"
      ⟨2, CalendarId.target, DayCount.actual360, eurIndex⟩ [] "RuntimeError" rfl rfl rfl⟩

/-- Claim C3: each reported forward rate is the continuously compounded
one-day forward, `(ln DF(d) - ln DF(calendar.advance(d, 1 day))) /
yearFraction(d, d + 1 day) * 100`, for every positive discount function. -/
theorem c3_forward_rate_formula (env : Env ℝ) (cal : CalendarId) (dc : DayCount)
    (ccy : String) (now : Int) (curve : Curve ℝ)
    (hlog : env.log = Real.log)
    (hpos : ∀ d : Int, 0 < curve.discount d) :
    ∀ r ∈ extractForwards env cal dc ccy now curve,
      r.RateFwd
        = (Real.log (curve.discount r.DateFwd)
            - Real.log (curve.discount (env.advance cal r.DateFwd 1 TimeUnit.days)))
          / yearFraction dc r.DateFwd (env.advance cal r.DateFwd 1 TimeUnit.days) * 100 := by
  intro r hr
  unfold extractForwards at hr
  obtain ⟨d, _, rfl⟩ := List.mem_map.1 hr
  dsimp only
  unfold forwardRateCont
  rw [hlog, Real.log_div (ne_of_gt (hpos d)) (ne_of_gt (hpos _))]

/-- Witness for `c3_forward_rate_formula` on the constant discount curve 1:
the hypothesis is satisfied since 0 < 1, and the single extracted row's rate
matches the claimed formula. -/
theorem c3_forward_rate_formula_w :
    (0 : ℝ) < 1
    ∧ (⟨0, "EUR", 0,
          Real.log ((1 : ℝ) / 1) / yearFraction DayCount.actual360 0 1 * 100, 7⟩ : Row ℝ).RateFwd
        = (Real.log (1 : ℝ) - Real.log (1 : ℝ))
          / yearFraction DayCount.actual360 0 1 * 100 := by
  refine ⟨one_pos, ?_⟩
  have hmem : (⟨0, "EUR", 0,
        Real.log ((1 : ℝ) / 1) / yearFraction DayCount.actual360 0 1 * 100, 7⟩ : Row ℝ)
      ∈ extractForwards
          (⟨Real.log, fun _ _ _ _ => Except.error "", fun _ d n u =>
            match u with
            | TimeUnit.days => d + n
            | _ => d⟩ : Env ℝ)
          CalendarId.target DayCount.actual360 "EUR" 7 ⟨0, fun _ => 1⟩ := by
    have hx : extractForwards
          (⟨Real.log, fun _ _ _ _ => Except.error "", fun _ d n u =>
            match u with
            | TimeUnit.days => d + n
            | _ => d⟩ : Env ℝ)
          CalendarId.target DayCount.actual360 "EUR" 7 ⟨0, fun _ => 1⟩
        = [⟨0, "EUR", 0,
            Real.log ((1 : ℝ) / 1) / yearFraction DayCount.actual360 0 1 * 100, 7⟩] := rfl
    rw [hx]
    exact List.mem_singleton_self _
  exact c3_forward_rate_formula
    (⟨Real.log, fun _ _ _ _ => Except.error "", fun _ d n u =>
      match u with
      | TimeUnit.days => d + n
      | _ => d⟩ : Env ℝ)
    CalendarId.target DayCount.actual360 "EUR" 7 ⟨0, fun _ => 1⟩ rfl
    (fun _ => one_pos) _ hmem

/-- Claim C4 counterexample: with an all-business-day calendar whose 3-year
advance spans three 365-day years, the extraction has 1096 entries — the
schedule includes both endpoints, so the count is the day span plus one,
which is neither `365 * 3` nor `366 * 3`. -/
theorem c4_counterexample :
    (extractForwards qlFailEnv CalendarId.target DayCount.actual360 "EUR" 0
        ⟨0, fun _ => (1 : ℚ)⟩).length = 1096
    ∧ (1096 : Nat) ≠ 365 * 3 ∧ (1096 : Nat) ≠ 366 * 3 := by
  refine ⟨?_, by decide, by decide⟩
  rw [extractForwards_length]
  show ((0 + 365 * 3 : Int) - 0 + 1).toNat = 1096
  decide

/-- Claim C4 (amended): the extraction has one entry per calendar day from
the curve's reference date through `calendar.advance(reference date, 3
years)` inclusive — the day span plus one entries — with strictly ascending
forward dates, and its timestamp-free content is a pure function of the
curve: re-running with a different timestamp changes only `Updated`. -/
theorem c4_schedule_shape (env : Env K) (cal : CalendarId) (dc : DayCount)
    (ccy : String) (now1 now2 : Int) (curve : Curve K)
    (h : curve.ref ≤ env.advance cal curve.ref 3 TimeUnit.years) :
    (extractForwards env cal dc ccy now1 curve).length
        = (env.advance cal curve.ref 3 TimeUnit.years - curve.ref).toNat + 1
    ∧ ((extractForwards env cal dc ccy now1 curve).map Row.DateFwd).Pairwise
        (fun x y => x < y)
    ∧ (extractForwards env cal dc ccy now1 curve).map stripUpdated
        = (extractForwards env cal dc ccy now2 curve).map stripUpdated := by
  refine ⟨?_, ?_, extract_stripUpdated env cal dc ccy now1 now2 curve⟩
  · rw [extractForwards_length]
    omega
  · rw [map_dateFwd_extractForwards]
    exact pairwise_mkSchedule _ _

/-- Witness for `c4_schedule_shape` at a concrete input. -/
theorem c4_schedule_shape_w :
    ((⟨0, fun _ => (1 : ℚ)⟩ : Curve ℚ).ref
        ≤ qlFailEnv.advance CalendarId.target (⟨0, fun _ => (1 : ℚ)⟩ : Curve ℚ).ref 3
            TimeUnit.years)
    ∧ (extractForwards qlFailEnv CalendarId.target DayCount.actual360 "GBP" 4
          ⟨0, fun _ => (1 : ℚ)⟩).length
        = (qlFailEnv.advance CalendarId.target (⟨0, fun _ => (1 : ℚ)⟩ : Curve ℚ).ref 3
              TimeUnit.years
            - (⟨0, fun _ => (1 : ℚ)⟩ : Curve ℚ).ref).toNat + 1 := by
  have h0 : (⟨0, fun _ => (1 : ℚ)⟩ : Curve ℚ).ref
      ≤ qlFailEnv.advance CalendarId.target (⟨0, fun _ => (1 : ℚ)⟩ : Curve ℚ).ref 3
          TimeUnit.years := by decide
  exact ⟨h0,
    (c4_schedule_shape qlFailEnv CalendarId.target DayCount.actual360 "GBP" 4 5
      ⟨0, fun _ => (1 : ℚ)⟩ h0).1⟩

/-- Claim C6 counterexample: for the term `"-2"` with unit `"Y"` the loop
performs no magnitude validation — Python's `int` parses `-2` and an
instrument with tenor `-2` years is constructed, instead of the claimed
`InvalidTenorMagnitude` failure with no instrument constructed. -/
theorem c6_counterexample :
    pyInt "-2" = some (-2)
    ∧ mkHelpers 2 eurIndex [(5 : ℚ)] ["-2"] ["Y"]
        = Except.ok [⟨2, -2, TimeUnit.years, 5 / 100, eurIndex⟩] :=
  ⟨by decide, rfl⟩

/-- Claim C6 (amended): the code has no magnitude validation: a negative
integer term is accepted and an instrument with negative tenor is
constructed, while a term that is not an integer literal (such as the empty
string) raises an uncaught `ValueError` from `int(...)` that escapes
`fwd_curve` and terminates the job. -/
theorem c6_no_magnitude_validation :
    mkHelpers 2 eurIndex [(5 : ℚ)] ["-2"] ["Y"]
      = Except.ok [⟨2, -2, TimeUnit.years, 5 / 100, eurIndex⟩]
    ∧ mkHelpers 2 eurIndex [(5 : ℚ)] [""] ["Y"] = Except.error LoopFail.pyExn
    ∧ (fwd_curve qlFailEnv 0 ⟨0⟩ [(5 : ℚ)] [""] ["Y"] 0 "EUR").2 = Outcome.pyError :=
  ⟨rfl, rfl, rfl⟩

/-- Claim C7 counterexample: for the unit `"X"` the function does not fail
for that currency's pipeline only: it reaches `logging.fatal` + `exit()`
(lines 77-78), terminating the whole process, which is not the per-currency
empty-frame outcome. -/
theorem c7_counterexample :
    (fwd_curve qlFailEnv 0 ⟨0⟩ [(5 : ℚ)] ["1"] ["X"] 0 "EUR").2 = Outcome.processHalt
    ∧ (Outcome.processHalt : Outcome ℚ) ≠ Outcome.frame [] :=
  ⟨rfl, fun h => Outcome.noConfusion h⟩

/-- Claim C7 (amended): the unit characters D, W, M, Y map case-insensitively
to Days, Weeks, Months, Years; any other unit string makes `fwd_curve`
terminate the entire process via `exit()` rather than failing only that
currency's pipeline. -/
theorem c7_unit_dispatch :
    (parseTimeUnit "D" = some TimeUnit.days ∧ parseTimeUnit "d" = some TimeUnit.days
      ∧ parseTimeUnit "W" = some TimeUnit.weeks ∧ parseTimeUnit "w" = some TimeUnit.weeks
      ∧ parseTimeUnit "M" = some TimeUnit.months ∧ parseTimeUnit "m" = some TimeUnit.months
      ∧ parseTimeUnit "Y" = some TimeUnit.years ∧ parseTimeUnit "y" = some TimeUnit.years)
    ∧ ∀ (env : Env ℚ) (now : Int) (s0 : Settings) (r : ℚ) (t u : String) (e : Int),
        parseTimeUnit u = none →
        fwd_curve env now s0 [r] [t] [u] e "EUR" = (⟨e⟩, Outcome.processHalt) := by
  constructor
  · exact ⟨by decide, by decide, by decide, by decide, by decide, by decide, by decide,
      by decide⟩
  · intro env now s0 r t u e hu
    have hc : convOf "EUR" = some ⟨2, CalendarId.target, DayCount.actual360, eurIndex⟩ := rfl
    simp only [fwd_curve, hc, mkHelpers, hu]

/-- Witness for the hypothesis-bearing part of `c7_unit_dispatch` at the
concrete unit `"Q"`. -/
theorem c7_unit_dispatch_w :
    parseTimeUnit "Q" = none
    ∧ fwd_curve qlFailEnv 1 ⟨2⟩ [(7 : ℚ)] ["2"] ["Q"] 3 "EUR"
        = (⟨3⟩, Outcome.processHalt) :=
  ⟨by decide, c7_unit_dispatch.2 qlFailEnv 1 ⟨2⟩ 7 "2" "Q" 3 (by decide)⟩

/-- Claim C8 counterexample: a `fwd_curve` run writes the process-global
`ql.Settings.instance()` singleton (line 24): starting from a global
evaluation date 0, a run with `eval_date = 1` leaves the shared global at 1,
so per-currency runs do write state that every other run reads. -/
theorem c8_counterexample :
    (fwd_curve qlFailEnv 0 ⟨0⟩ ([] : List ℚ) [] [] 1 "EUR").1 = (⟨1⟩ : Settings)
    ∧ ((⟨1⟩ : Settings) ≠ (⟨0⟩ : Settings)) :=
  ⟨rfl, by decide⟩

/-- Claim C8 (amended): the runs share exactly one piece of mutable state,
the global evaluation-date setting, which every run overwrites on entry with
its own `eval_date`; a run's entire result is independent of the prior value
of that global, so runs given the same `eval_date` (as the job does) produce
the same per-currency results in any execution order. -/
theorem c8_settings_independence (env : Env K) (now : Int) (s1 s2 : Settings)
    (rates : List K) (terms units : List String) (eval_date : Int) (ccy : String) :
    fwd_curve env now s1 rates terms units eval_date ccy
      = fwd_curve env now s2 rates terms units eval_date ccy
    ∧ (fwd_curve env now s1 rates terms units eval_date ccy).1 = ⟨eval_date⟩ := by
  refine ⟨rfl, ?_⟩
  simp only [fwd_curve]
  rcases hc : convOf ccy with _ | cv
  · rfl
  · dsimp only
    rcases hm : mkHelpers cv.settlementDays cv.index rates terms units with e | hs
    · cases e <;> rfl
    · dsimp only
      rcases hb : env.buildCurve ⟨eval_date⟩ cv.calendar hs cv.dayCount with m | c
      · rfl
      · rfl

/-- Claim C9: on an empty quote set the helper loop yields an empty helper
list, the curve library's failure on it (a `RuntimeError`) is raised inside
the `try` block, and `fwd_curve` returns the empty frame instead of raising. -/
theorem c9_empty_quote_set (env : Env K) (now : Int) (s0 : Settings) (eval_date : Int)
    (ccy : String) (cv : Conv) (msg : String)
    (h1 : convOf ccy = some cv)
    (h2 : env.buildCurve ⟨eval_date⟩ cv.calendar [] cv.dayCount = Except.error msg) :
    fwd_curve env now s0 [] [] [] eval_date ccy = (⟨eval_date⟩, Outcome.frame []) := by
  simp only [fwd_curve, h1, mkHelpers, h2]

/-- Witness for `c9_empty_quote_set` at a concrete input. -/
theorem c9_empty_quote_set_w :
    convOf "GBP" = some ⟨0, CalendarId.unitedKingdom, DayCount.actual365Fixed, gbpIndex⟩
    ∧ qlFailEnv.buildCurve ⟨5⟩ CalendarId.unitedKingdom [] DayCount.actual365Fixed
        = Except.error "RuntimeError"
    ∧ fwd_curve qlFailEnv 2 ⟨9⟩ ([] : List ℚ) [] [] 5 "GBP" = (⟨5⟩, Outcome.frame []) :=
  ⟨rfl, rfl,
    c9_empty_quote_set qlFailEnv 2 ⟨9⟩ 5 "GBP"
      ⟨0, CalendarId.unitedKingdom, DayCount.actual365Fixed, gbpIndex⟩ "RuntimeError"
      rfl rfl⟩

/-- Claim C10: in any frame returned by `fwd_curve`, every row carries the
run's currency code and the single `datetime.now()` timestamp taken for the
whole batch, and all rows share one valuation date. -/
theorem c10_constant_batch_columns (env : Env K) (now : Int) (s0 : Settings)
    (rates : List K) (terms units : List String) (eval_date : Int) (ccy : String)
    (rows : List (Row K))
    (h : (fwd_curve env now s0 rates terms units eval_date ccy).2 = Outcome.frame rows) :
    ∀ r ∈ rows, r.Currency = ccy ∧ r.Updated = now ∧ ∀ r2 ∈ rows, r2.Date = r.Date := by
  simp only [fwd_curve] at h
  rcases hc : convOf ccy with _ | cv
  · rw [hc] at h
    simp at h
  · rw [hc] at h
    dsimp only at h
    rcases hm : mkHelpers cv.settlementDays cv.index rates terms units with e | hs
    · rw [hm] at h
      cases e <;> simp at h
    · rw [hm] at h
      dsimp only at h
      rcases hb : env.buildCurve ⟨eval_date⟩ cv.calendar hs cv.dayCount with m | curve
      · rw [hb] at h
        simp at h
        subst h
        intro r hr
        cases hr
      · rw [hb] at h
        simp at h
        subst h
        intro r hr
        obtain ⟨hd, hcur, hup⟩ :=
          mem_extractForwards env cv.calendar cv.dayCount ccy now curve r hr
        refine ⟨hcur, hup, ?_⟩
        intro r2 hr2
        obtain ⟨hd2, _, _⟩ :=
          mem_extractForwards env cv.calendar cv.dayCount ccy now curve r2 hr2
        rw [hd2, hd]

/-- Witness for `c10_constant_batch_columns` on a successful concrete run
producing one row. -/
theorem c10_constant_batch_columns_w :
    (fwd_curve qlOkEnv 9 ⟨0⟩ [(5 : ℚ)] ["1"] ["Y"] 0 "EUR").2
      = Outcome.frame [⟨0, "EUR", 0,
          forwardRateCont qlOkEnv ⟨0, fun _ => (1 : ℚ)⟩ DayCount.actual360 0
            (qlOkEnv.advance CalendarId.target 0 1 TimeUnit.days) * 100, 9⟩]
    ∧ Row.Currency (⟨0, "EUR", 0,
          forwardRateCont qlOkEnv ⟨0, fun _ => (1 : ℚ)⟩ DayCount.actual360 0
            (qlOkEnv.advance CalendarId.target 0 1 TimeUnit.days) * 100, 9⟩ : Row ℚ)
        = "EUR"
    ∧ Row.Updated (⟨0, "EUR", 0,
          forwardRateCont qlOkEnv ⟨0, fun _ => (1 : ℚ)⟩ DayCount.actual360 0
            (qlOkEnv.advance CalendarId.target 0 1 TimeUnit.days) * 100, 9⟩ : Row ℚ)
        = 9 := by
  have h : (fwd_curve qlOkEnv 9 ⟨0⟩ [(5 : ℚ)] ["1"] ["Y"] 0 "EUR").2
      = Outcome.frame [⟨0, "EUR", 0,
          forwardRateCont qlOkEnv ⟨0, fun _ => (1 : ℚ)⟩ DayCount.actual360 0
            (qlOkEnv.advance CalendarId.target 0 1 TimeUnit.days) * 100, 9⟩] := rfl
  have h2 := c10_constant_batch_columns qlOkEnv 9 ⟨0⟩ [(5 : ℚ)] ["1"] ["Y"] 0 "EUR" _ h
  have h3 := h2 _ (List.mem_singleton_self _)
  exact ⟨h, h3.1, h3.2.1⟩

end OisCurves
